import Mathlib

/-!
Shallow embedding of the rule-bearing logic of the DevSearch repository
(pagination, registration validation, media ingestion, vote-ratio engine,
tag association, profile update, project deletion), together with theorems
settling the specification claims about it.

Conventions:
* Python ints are modelled as `Nat` (all quantities involved are counts,
  page numbers or sizes); Python floats used for `vote_ratio` are modelled
  as exact rationals `ℚ` (the float arithmetic involved is a single
  division and multiplication on small counts).
* Database tables are modelled as lists of rows; a handler returns an
  `Except` value paired with the post-state of the database, errors
  carrying the unchanged pre-state (an uncommitted transaction is rolled
  back when the request-scoped session closes).
* External libraries used as black boxes by the code (pydantic's EmailStr
  syntax check, PIL image decoding) are modelled as explicit parameters.
-/

namespace DevSearch

/-! ## Pagination — `render/utils.py`, class `Paginator` -/

/-- An entry of the list produced by `Paginator.pages_range`: either a page
number or the literal ellipsis string `'...'` used by the UI. -/
inductive PageItem where
  | page (n : Nat)
  | ellipsis
deriving DecidableEq, Repr

/-- The `Paginator` object: fields set by `Paginator.__init__`. -/
structure Paginator where
  page_size : Nat
  current_page : Nat
  items : Nat
  pages : Nat
  next_page : Option Nat
  previous_page : Option Nat
deriving DecidableEq, Repr

/-- `Paginator.__init__(page, size, total)` (render/utils.py lines 21-34):
`pages = ceil(total / size)`, `next_page = page + 1 if page < pages else
None`, `previous_page = page - 1 if page > 1 else None`.  The ceiling of
the true division is computed on naturals as `(total + size - 1) / size`
(equal to `⌈total / size⌉` for `size > 0`, proved in `ceil_div_eq_rat_ceil`
below; Python raises `ZeroDivisionError` for `size = 0`, a case excluded by
every claim). -/
def Paginator.init (page size total : Nat) : Paginator :=
  let pages := (total + size - 1) / size
  { page_size := size
    current_page := page
    items := total
    pages := pages
    next_page := if page < pages then some (page + 1) else none
    previous_page := if page > 1 then some (page - 1) else none }

/-- `Paginator.pages_range(on_each_side=2, on_ends=2)` (render/utils.py
lines 36-76).  `range(a, b)` is `List.range' a (b - a)` (empty when
`b ≤ a`, as in Python); the arithmetic is on naturals, which agrees with
Python's ints on every branch actually reachable (each subtraction is
guarded by the comparison that precedes it). -/
def Paginator.pages_range (self : Paginator) (on_each_side on_ends : Nat) :
    List PageItem :=
  let max_display := on_each_side * 2 + on_ends * 2 + 1
  if self.pages ≤ max_display then
    (List.range' 1 self.pages).map .page
  else
    let start := max 1 (self.current_page - on_each_side)
    let stop := min self.pages (self.current_page + on_each_side)
    let middle := (List.range' start (stop + 1 - start)).map .page
    let beginning :=
      if start > on_ends + 1 then
        (List.range' 1 on_ends).map .page ++ [PageItem.ellipsis]
      else
        (List.range' 1 (start - 1)).map .page
    let ending :=
      if stop < self.pages - on_ends then
        PageItem.ellipsis ::
          (List.range' (self.pages - on_ends + 1)
            (self.pages + 1 - (self.pages - on_ends + 1))).map .page
      else
        (List.range' (stop + 1) (self.pages + 1 - (stop + 1))).map .page
    beginning ++ middle ++ ending

/-! ## Registration validation — `users/validators.py` -/

/-- The database rows the validators query: the stored usernames and
emails of the `profiles` table. -/
structure ValidationDB where
  usernames : List String
  emails : List String

/-- `username_validator` (users/validators.py lines 12-17): one error when
the username is already taken. -/
def username_validator (username : String) (db : ValidationDB) : List String :=
  if username ∈ db.usernames then ["Username used before!"] else []

/-- `email_validator` (users/validators.py lines 20-32).  The syntactic
check is delegated by the code to pydantic's `EmailStr` (an external
library used as a black box); it is modelled by the parameter
`email_format_error`, which carries the pydantic error message when the
email is syntactically invalid.  A syntax error short-circuits the
already-taken check, as in the source. -/
def email_validator (email_format_error : Option String) (email : String)
    (db : ValidationDB) : List String :=
  match email_format_error with
  | some msg => [msg]
  | none => if email ∈ db.emails then ["Email used before!"] else []

/-- Python's `\s` whitespace class used by the external
`password_validator` library's `spaces()` rule. -/
def is_space_char (c : Char) : Bool :=
  c == ' ' || c == '\t' || c == '\n' || c == '\r' || c == '\x0b' || c == '\x0c'

/-- The `symbols()` rule of the external `password_validator` library:
a character that is neither alphanumeric nor whitespace. -/
def is_symbol_char (c : Char) : Bool :=
  !(c.isAlphanum || is_space_char c)

/-- `password_validator` (users/validators.py lines 35-54): seven
independent rules checked in order, each appending its own message;
character classes are the ASCII classes of the external
`password_validator` library.  A string is scanned as its character list
(`String.data`). -/
def password_validator (password : String) : List String :=
  (if password.length < 8 then
    ["Password must be at least 8 characters."] else [])
  ++ (if password.length > 50 then
    ["Password must not exceed 50 characters."] else [])
  ++ (if !password.data.any Char.isUpper then
    ["Password must contain at least one uppercase letter."] else [])
  ++ (if !password.data.any Char.isLower then
    ["Password must contain at least one lowercase letter."] else [])
  ++ (if !password.data.any Char.isDigit then
    ["Password must contain at least one digit."] else [])
  ++ (if password.data.any is_space_char then
    ["Password must not contain spaces."] else [])
  ++ (if !password.data.any is_symbol_char then
    ["Password must contain at least one symbol."] else [])

/-- `password_2_validator` (users/validators.py lines 57-58). -/
def password_2_validator (x y : String) : List String :=
  if x ≠ y then ["Please make sure to use the same password"] else []

/-- `user_validation` (users/validators.py lines 61-77): runs every
validator, collects the non-empty error lists into a mapping in insertion
order.  Python's truthiness test `if password_2:` skips the confirmation
check when `password_2` is `None` or the empty string. -/
def user_validation (username email password : String)
    (email_format_error : Option String) (db : ValidationDB)
    (password_2 : Option String) : List (String × List String) :=
  let username_err := username_validator username db
  let email_err := email_validator email_format_error email db
  let password_err := password_validator password
  (if username_err ≠ [] then [("username", username_err)] else [])
  ++ (if email_err ≠ [] then [("email", email_err)] else [])
  ++ (if password_err ≠ [] then [("password", password_err)] else [])
  ++ (match password_2 with
      | some p2 =>
        if p2 ≠ "" then
          (let p2_err := password_2_validator password p2
           if p2_err ≠ [] then [("password_2", p2_err)] else [])
        else []
      | none => [])

/-! ## Media ingestion — `users/utils.py`, constants from `config.py` -/

/-- An application error: either a raised `HTTPException` (`http status
detail`) or an uncaught Python exception (`pyexc name`), which the
framework surfaces as a generic 500. -/
inductive ApiError where
  | http (status_code : Nat) (detail : String)
  | pyexc (name : String)
deriving DecidableEq, Repr

/-- `config.SAVE_DIR`. -/
def SAVE_DIR : String := "./static/images"

/-- `config.ALLOWED_EXTENSIONS`. -/
def ALLOWED_EXTENSIONS : List String := ["png", "jpg", "jpeg", "gif"]

/-- `config.MAX_FILE_SIZE` (10 MB). -/
def MAX_FILE_SIZE : Nat := 10 * 1024 * 1024

/-- An uploaded multipart file: its client-supplied filename, the byte
length of its contents, and whether PIL's `Image.open` can decode the
contents (the image codec library is external; its success is the
`decodable` flag). -/
structure UploadFile where
  filename : String
  size : Nat
  decodable : Bool
deriving DecidableEq, Repr

/-- A filesystem side effect performed by `save_and_compress_image`:
creating the date directory, or writing the re-encoded JPEG file. -/
inductive FsEvent where
  | makedirs (path : String)
  | save_jpeg (path : String)
deriving DecidableEq, Repr

/-- Python's `filename.rsplit('.', 1)[1]`: the part of the filename after
the last dot (meaningful when a dot is present, which the caller
guards). -/
def rsplit_ext (filename : String) : String :=
  ⟨(filename.data.reverse.takeWhile (fun c => c ≠ '.')).reverse⟩

/-- `str.lower()` on ASCII. -/
def lower_str (s : String) : String :=
  ⟨s.data.map Char.toLower⟩

/-- `allowed_file` (users/utils.py lines 10-11):
`'.' in filename and filename.rsplit('.', 1)[1].lower() in
ALLOWED_EXTENSIONS`. -/
def allowed_file (filename : String) : Bool :=
  filename.data.contains '.'
    && ALLOWED_EXTENSIONS.contains (lower_str (rsplit_ext filename))

/-- `save_and_compress_image` (users/utils.py lines 14-49): extension
check, then size check on the bytes read, then `os.makedirs` of the
date-partitioned directory, then PIL decode, then JPEG re-encode to a
random-prefixed filename.  `current_date` and `uuid_part` stand for
`datetime.now().strftime(...)` and `str(uuid4())[:10]`.  The returned
list records the filesystem writes in order. -/
def save_and_compress_image (image : UploadFile)
    (current_date uuid_part : String) :
    Except ApiError String × List FsEvent :=
  if !allowed_file image.filename then
    (.error (.http 400 "Invalid image extension"), [])
  else if image.size > MAX_FILE_SIZE then
    (.error (.http 400 "File size exceeds the maximum limit of 10 MB"), [])
  else
    let date_dir := SAVE_DIR ++ "/" ++ current_date
    let extension := lower_str (rsplit_ext image.filename)
    let unique_filename := uuid_part ++ "." ++ extension
    let file_path := date_dir ++ "/" ++ unique_filename
    if !image.decodable then
      (.error (.http 400 "Invalid image file"), [.makedirs date_dir])
    else
      (.ok file_path, [.makedirs date_dir, .save_jpeg file_path])

/-- Decidable equality of `Except` results, used to evaluate handlers on
concrete inputs. -/
instance {ε α : Type} [DecidableEq ε] [DecidableEq α] :
    DecidableEq (Except ε α) := fun a b =>
  match a, b with
  | .ok x, .ok y =>
    if h : x = y then isTrue (by rw [h]) else isFalse (by simp [h])
  | .ok _, .error _ => isFalse (by simp)
  | .error _, .ok _ => isFalse (by simp)
  | .error x, .error y =>
    if h : x = y then isTrue (by rw [h]) else isFalse (by simp [h])

/-! ## Data model — `models.py`

Tables are lists of rows; UUIDs are modelled as `Nat` identifiers and the
float `vote_ratio` as an exact rational. -/

/-- `models.Review.Value`. -/
inductive Value where
  | up
  | down
deriving DecidableEq, Repr

/-- A row of the `projects` table (`models.Project`).  `owner_id` is
nullable (`SET NULL` on owner deletion), as is `featured_image`. -/
structure Project where
  project_id : Nat
  owner_id : Option Nat
  featured_image : Option String
  vote_total : Nat
  vote_ratio : ℚ
deriving DecidableEq, Repr

/-- A row of the `reviews` table (`models.Review`). -/
structure Review where
  review_id : Nat
  body : Option String
  value : Value
  owner_id : Option Nat
  project_id : Nat
deriving DecidableEq, Repr

/-- A row of the `tags` table (`models.Tag`). -/
structure Tag where
  tag_id : Nat
  name : String
deriving DecidableEq, Repr

/-- The database state used by the project/review/tag handlers:
the `projects`, `reviews` and `tags` tables and the `project_tag`
association table (rows `(project_id, tag_id)`). -/
structure State where
  projects : List Project
  reviews : List Review
  tags : List Tag
  project_tags : List (Nat × Nat)
deriving DecidableEq, Repr

/-! ## Vote ratio engine — `projects/utils.py`, `projects/reviews.py` -/

/-- `_get_project` (projects/utils.py lines 11-14). -/
def _get_project (project_id : Nat) (s : State) : Option Project :=
  s.projects.find? (fun p => p.project_id == project_id)

/-- The count query of `update_votes` (projects/utils.py lines 19-21):
reviews of the project whose value is `up`. -/
def count_up_reviews (project_id : Nat) (s : State) : Nat :=
  (s.reviews.filter
    (fun r => r.project_id == project_id && r.value == Value.up)).length

/-- `Project.update_vote_ratio` (models.py lines 109-110):
`vote_ratio = value / vote_total * 100`.  In ℚ a division by zero yields
0 where Python would raise `ZeroDivisionError`; every theorem below
assumes `vote_total ≠ 0`, so the two semantics agree on all inputs
considered. -/
def Project.update_vote_ratio (p : Project) (value : Nat) : Project :=
  { p with vote_ratio := (value : ℚ) / (p.vote_total : ℚ) * 100 }

/-- `update_votes` (projects/utils.py lines 17-25): count the project's
`up` reviews, load the project, recompute its ratio, commit.  A missing
project raises `AttributeError` (`project.update_vote_ratio` on `None`),
modelled as an uncaught exception with no committed change. -/
def update_votes (project_id : Nat) (s : State) : Except ApiError State :=
  let up_votes := count_up_reviews project_id s
  match _get_project project_id s with
  | none => .error (.pyexc "AttributeError")
  | some _ =>
    .ok { s with projects := s.projects.map (fun q =>
            if q.project_id == project_id
            then q.update_vote_ratio up_votes else q) }

/-- The database trigger `update_vote_total_after_insert`
(base/database.py lines 18-27, also installed by the test fixtures):
`AFTER INSERT ON reviews ... UPDATE projects SET vote_total =
vote_total + 1 WHERE project_id = NEW.project_id`.  It fires when the
insert is committed. -/
def trigger_review_insert (project_id : Nat) (s : State) : State :=
  { s with projects := s.projects.map (fun p =>
      if p.project_id == project_id
      then { p with vote_total := p.vote_total + 1 } else p) }

/-- The database trigger `update_vote_total_after_delete`
(base/database.py lines 29-38, also installed by the test fixtures):
`AFTER DELETE ON reviews ... UPDATE projects SET vote_total =
vote_total - 1 WHERE project_id = OLD.project_id`.  It fires when the
delete is committed; the SQL decrement on the integer column is a
truncated `Nat` subtraction here because `vote_total` counts the
project's review rows, which are only ever decremented after a
delete. -/
def trigger_review_delete (project_id : Nat) (s : State) : State :=
  { s with projects := s.projects.map (fun p =>
      if p.project_id == project_id
      then { p with vote_total := p.vote_total - 1 } else p) }

/-- `get_my_review` (projects/reviews.py lines 33-51): the review with
the given id owned by the authenticated user, else 404. -/
def get_my_review (review_id user_id : Nat) (s : State) :
    Except ApiError Review :=
  match s.reviews.find?
      (fun r => r.review_id == review_id && r.owner_id == some user_id) with
  | none => .error (.http 404 "Could not find the review!")
  | some r => .ok r

/-- `create_review` (projects/reviews.py lines 54-84): reject with HTTP
400 when a review by this user for this project exists; otherwise insert
the new review (commit fires the insert trigger) and recompute the
ratio.  An error leaves the post-state at the last committed point. -/
def create_review (project_id : Nat) (body : Option String) (value : Value)
    (user_id new_review_id : Nat) (s : State) :
    Except ApiError Review × State :=
  match s.reviews.find?
      (fun r => r.project_id == project_id && r.owner_id == some user_id) with
  | some _ => (.error (.http 400 "User has already reviewed this project."), s)
  | none =>
    let review : Review :=
      { review_id := new_review_id, body := body, value := value
        owner_id := some user_id, project_id := project_id }
    let s1 := trigger_review_insert project_id
      { s with reviews := s.reviews ++ [review] }
    match update_votes project_id s1 with
    | .ok s2 => (.ok review, s2)
    | .error e => (.error e, s1)

/-- `update_review` (projects/reviews.py lines 87-102): load the user's
review, overwrite its schema fields, commit, recompute the ratio of the
review's project. -/
def update_review (review_id : Nat) (body : Option String) (value : Value)
    (user_id : Nat) (s : State) : Except ApiError Unit × State :=
  match get_my_review review_id user_id s with
  | .error e => (.error e, s)
  | .ok review =>
    let s1 := { s with reviews := s.reviews.map (fun r =>
        if r.review_id == review_id
        then { r with body := body, value := value } else r) }
    match update_votes review.project_id s1 with
    | .ok s2 => (.ok (), s2)
    | .error e => (.error e, s1)

/-- `delete_review` (projects/reviews.py lines 105-118): load the user's
review, delete it (commit fires the delete trigger), recompute the ratio
of the review's project. -/
def delete_review (review_id user_id : Nat) (s : State) :
    Except ApiError Unit × State :=
  match get_my_review review_id user_id s with
  | .error e => (.error e, s)
  | .ok review =>
    let s1 := trigger_review_delete review.project_id
      { s with reviews :=
          s.reviews.filter (fun r => !(r.review_id == review_id)) }
    match update_votes review.project_id s1 with
    | .ok s2 => (.ok (), s2)
    | .error e => (.error e, s1)

/-! ## Tag association — `projects/tags.py` -/

/-- `delete_tag` (projects/tags.py lines 52-81).  The first query joins
`projects` with the association table, so its scalar is `None` when the
project is missing, when the `(project, tag)` association is missing, or
when the project's `owner_id` is NULL — all three give 404.  The
ownership check raises HTTP 401.  After deleting the association rows the
code runs `scalar_one_or_none()` over the tag's remaining association
rows: zero rows delete the tag, one row keeps it, and two or more rows
raise `MultipleResultsFound` (an uncaught exception: nothing is
committed, so the state is unchanged). -/
def delete_tag (tag_id project_id user_id : Nat) (s : State) :
    Except ApiError Unit × State :=
  let owner_id : Option Nat :=
    match s.projects.find? (fun p => p.project_id == project_id) with
    | some p =>
      if s.project_tags.any (fun a => a.1 == project_id && a.2 == tag_id)
      then p.owner_id else none
    | none => none
  match owner_id with
  | none => (.error (.http 404 "Tag not found!"), s)
  | some owner =>
    if user_id ≠ owner then
      (.error
        (.http 401 "You\x27re not authorized to delete tags from this project!"),
        s)
    else
      let assocs := s.project_tags.filter
        (fun a => !(a.1 == project_id && a.2 == tag_id))
      match assocs.filter (fun a => a.2 == tag_id) with
      | [] =>
        (.ok (), { s with project_tags := assocs,
                          tags := s.tags.filter (fun t => !(t.tag_id == tag_id)) })
      | [_] => (.ok (), { s with project_tags := assocs })
      | _ => (.error (.pyexc "MultipleResultsFound"), s)

/-! ## Profile update — `users/users.py`, `apis/users/schemas.py` -/

/-- A row of the `profiles` table (`models.Profile`), restricted to the
fields the update path reads or writes. -/
structure Profile where
  username : String
  email : String
  password : String
  first_name : Option String
  last_name : Option String
  location : Option String
  short_intro : Option String
  bio : Option String
  github : Option String
  x : Option String
  linkedin : Option String
  youtube : Option String
  website : Option String
deriving DecidableEq, Repr

/-- The raw JSON body of a partial profile update: each updatable field
is either absent (`none`) or present with a value that is itself either
an explicit null (`some none`) or a string (`some (some v)`). -/
structure UpdateProfilePayload where
  first_name : Option (Option String)
  last_name : Option (Option String)
  location : Option (Option String)
  short_intro : Option (Option String)
  bio : Option (Option String)
  github : Option (Option String)
  x : Option (Option String)
  linkedin : Option (Option String)
  youtube : Option (Option String)
  website : Option (Option String)
deriving DecidableEq, Repr

/-- The validated `UpdateProfile` pydantic model
(apis/users/schemas.py lines 11-23): every field is optional with
default `None`. -/
structure UpdateProfile where
  first_name : Option String
  last_name : Option String
  location : Option String
  short_intro : Option String
  bio : Option String
  github : Option String
  x : Option String
  linkedin : Option String
  youtube : Option String
  website : Option String
deriving DecidableEq, Repr

/-- Construction of `UpdateProfile` from a request payload: a field
absent from the payload takes its pydantic default `None`; a field
present takes the supplied value (possibly an explicit null). -/
def UpdateProfile.of_payload (payload : UpdateProfilePayload) : UpdateProfile :=
  { first_name := payload.first_name.getD none
    last_name := payload.last_name.getD none
    location := payload.location.getD none
    short_intro := payload.short_intro.getD none
    bio := payload.bio.getD none
    github := payload.github.getD none
    x := payload.x.getD none
    linkedin := payload.linkedin.getD none
    youtube := payload.youtube.getD none
    website := payload.website.getD none }

/-- `update_profile` (users/users.py lines 107-131): iterates over
`updated_profile.model_dump().items()` — which, lacking
`exclude_unset=True`, contains every schema field — and `setattr`s each
one onto the stored profile.  Fields outside the schema (username, email,
password) are untouched. -/
def update_profile (profile : Profile) (updated_profile : UpdateProfile) :
    Profile :=
  { profile with
      first_name := updated_profile.first_name
      last_name := updated_profile.last_name
      location := updated_profile.location
      short_intro := updated_profile.short_intro
      bio := updated_profile.bio
      github := updated_profile.github
      x := updated_profile.x
      linkedin := updated_profile.linkedin
      youtube := updated_profile.youtube
      website := updated_profile.website }

/-! ## Project deletion — `projects/projects.py` -/

/-- `delete_project` (projects/projects.py lines 115-129): loads the
project (a missing project raises `AttributeError` on the owner check),
rejects non-owners with HTTP 401, best-effort removes the featured-image
file when set and not the shared default, then calls `db.delete(user)` —
`user` being the authenticated-user dict from `user_dependency`, not the
loaded project.  SQLAlchemy rejects the unmapped dict with
`UnmappedInstanceError`, `commit_db` is never reached, and no table row
changes.  The third component lists the files removed from disk. -/
def delete_project (project_id user_id : Nat) (s : State) :
    Except ApiError Unit × State × List String :=
  match _get_project project_id s with
  | none => (.error (.pyexc "AttributeError"), s, [])
  | some project =>
    if project.owner_id ≠ some user_id then
      (.error (.http 401 "You\x27re not authorized to edit this project!"),
        s, [])
    else
      let removed := match project.featured_image with
        | some path =>
          if path ≠ "" && path ≠ "/static/images/default.jpg"
          then [path] else []
        | none => []
      (.error (.pyexc "UnmappedInstanceError"), s, removed)

/-- The spec's invariant for one project, used to state that a handler
recomputed the ratio: whenever the project exists and its `vote_total`
is nonzero, `vote_ratio = (count of its reviews with value up)
/ vote_total * 100`. -/
def ratio_recomputed (project_id : Nat) (s : State) : Prop :=
  ∀ p, _get_project project_id s = some p → p.vote_total ≠ 0 →
    p.vote_ratio = (count_up_reviews project_id s : ℚ) / (p.vote_total : ℚ) * 100

/-! ## Helper lemmas -/

theorem mem_ite_singleton {α : Type} (a b : α) (c : Prop) [Decidable c] :
    a ∈ (if c then [b] else ([] : List α)) ↔ c ∧ a = b := by
  split <;> simp_all

theorem find?_map_pred {α : Type} (f : α → α) (pred : α → Bool)
    (hpres : ∀ a, pred (f a) = pred a) (l : List α) :
    (l.map f).find? pred = (l.find? pred).map f := by
  induction l with
  | nil => rfl
  | cons a t ih =>
    cases hpa : pred a
    · simp [List.find?_cons, hpres, hpa, ih]
    · simp [List.find?_cons, hpres, hpa]

/-- What a successful `update_votes` run guarantees: only the projects
table changes, and the targeted project's ratio satisfies the recompute
invariant. -/
theorem update_votes_ok (project_id : Nat) (s s' : State)
    (h : update_votes project_id s = .ok s') :
    s'.reviews = s.reviews ∧ s'.tags = s.tags
      ∧ s'.project_tags = s.project_tags
      ∧ ratio_recomputed project_id s' := by
  unfold update_votes at h
  cases hp : _get_project project_id s with
  | none => rw [hp] at h; simp at h
  | some p =>
    rw [hp] at h
    injection h with h
    subst h
    refine ⟨rfl, rfl, rfl, fun q hq hvt => ?_⟩
    have hmap : ∀ a : Project,
        ((if a.project_id == project_id
          then a.update_vote_ratio (count_up_reviews project_id s)
          else a).project_id == project_id)
          = (a.project_id == project_id) := by
      intro a
      by_cases ha : a.project_id == project_id <;>
        simp [ha, Project.update_vote_ratio]
    unfold _get_project at hp hq
    simp only at hq
    rw [find?_map_pred _ _ hmap, hp, Option.map_some'] at hq
    injection hq with hq
    subst hq
    have hpred := List.find?_some hp
    simp at hpred
    simp [hpred, Project.update_vote_ratio, count_up_reviews]

/-- When the project exists, `update_votes` succeeds and commits the
recomputed projects table. -/
theorem update_votes_of_exists (project_id : Nat) (s : State) (p : Project)
    (hp : _get_project project_id s = some p) :
    update_votes project_id s
      = .ok { s with projects := s.projects.map (fun q =>
          if q.project_id == project_id
          then q.update_vote_ratio (count_up_reviews project_id s) else q) } := by
  unfold update_votes
  rw [hp]

/-- For `size > 0`, the natural-number expression used in `Paginator.init`
for `pages` equals the ceiling of the exact division `total / size`. -/
theorem ceil_div_eq_rat_ceil (total size : Nat) (hs : 0 < size) :
    (((total + size - 1) / size : Nat) : ℤ) = ⌈(total : ℚ) / (size : ℚ)⌉ := by
  have hsq : (0 : ℚ) < (size : ℚ) := by exact_mod_cast hs
  have hmod : (total + size - 1) % size < size := Nat.mod_lt _ hs
  have hdecomp : (total + size - 1) % size
      + size * ((total + size - 1) / size) = total + size - 1 :=
    Nat.mod_add_div _ _
  have hub : total ≤ (total + size - 1) / size * size := by
    rw [mul_comm]; omega
  have hlb : (total + size - 1) / size * size < total + size := by
    have := Nat.div_mul_le_self (total + size - 1) size
    omega
  symm
  rw [Int.ceil_eq_iff]
  refine ⟨?_, ?_⟩
  · rw [lt_div_iff₀ hsq]
    have hlb' : ((((total + size - 1) / size : ℕ)) : ℚ) * size
        < (total : ℚ) + size := by
      exact_mod_cast hlb
    simp only [Int.cast_natCast]
    nlinarith [hlb', hsq]
  · rw [div_le_iff₀ hsq]
    have hub' : (total : ℚ) ≤ ((((total + size - 1) / size : ℕ)) : ℚ) * size := by
      exact_mod_cast hub
    simp only [Int.cast_natCast]
    linarith

/-! ## Claim theorems: pagination -/

/-- C6: for every valid page/size/total triple (`page ≥ 1`, `size ≥ 1`,
`total ≥ 1`, `page ≤ pages`), the constructed `Paginator` satisfies
`pages = ⌈total / size⌉`, `next_page = page + 1` when `page < pages` with
`next_page = none` exactly at the last page, and
`previous_page = page - 1` when `page > 1` with `previous_page = none`
exactly at the first page. -/
theorem paginator_init_spec (page size total : Nat)
    (hpage : 1 ≤ page) (hsize : 1 ≤ size) (htotal : 1 ≤ total)
    (hle : page ≤ (Paginator.init page size total).pages) :
    (((Paginator.init page size total).pages : ℤ)
        = ⌈(total : ℚ) / (size : ℚ)⌉)
    ∧ ((Paginator.init page size total).next_page = none
        ↔ page = (Paginator.init page size total).pages)
    ∧ (page < (Paginator.init page size total).pages →
        (Paginator.init page size total).next_page = some (page + 1))
    ∧ ((Paginator.init page size total).previous_page = none ↔ page = 1)
    ∧ (1 < page →
        (Paginator.init page size total).previous_page = some (page - 1)) := by
  refine ⟨ceil_div_eq_rat_ceil total size hsize, ?_, ?_, ?_, ?_⟩ <;>
    simp only [Paginator.init] at * <;> split <;> simp_all <;> omega

/-- C6 witness: the triple `page = 2`, `size = 3`, `total = 7` gives
`pages = 3` with `next_page = 3` and `previous_page = 1`. -/
theorem paginator_init_spec_witness :
    (Paginator.init 2 3 7).next_page = some 3
    ∧ (Paginator.init 2 3 7).previous_page = some 1 :=
  ⟨(paginator_init_spec 2 3 7 (by decide) (by decide) (by decide)
      (by decide)).2.2.1 (by decide),
   (paginator_init_spec 2 3 7 (by decide) (by decide) (by decide)
      (by decide)).2.2.2.2 (by decide)⟩

/-- C5: `pages_range` returns the full page list `[1..pages]` whenever
`pages ≤ on_each_side * 2 + on_ends * 2 + 1`; with the defaults
`on_each_side = 2`, `on_ends = 2` it returns
`[1, 2, '...', 8, 9, 10, 11, 12, '...', 19, 20]` for `pages = 20`,
`current = 10` (obtained from `Paginator(page=10, size=1, total=20)`), and
`[1, 2, 3, 4, 5]` for `pages = 5`, `current = 3`. -/
theorem pages_range_spec (p : Paginator) (on_each_side on_ends : Nat)
    (h : p.pages ≤ on_each_side * 2 + on_ends * 2 + 1) :
    p.pages_range on_each_side on_ends
        = (List.range' 1 p.pages).map PageItem.page
    ∧ (Paginator.init 10 1 20).pages_range 2 2
        = [PageItem.page 1, PageItem.page 2, PageItem.ellipsis,
           PageItem.page 8, PageItem.page 9, PageItem.page 10,
           PageItem.page 11, PageItem.page 12, PageItem.ellipsis,
           PageItem.page 19, PageItem.page 20]
    ∧ (Paginator.init 3 1 5).pages_range 2 2
        = [PageItem.page 1, PageItem.page 2, PageItem.page 3,
           PageItem.page 4, PageItem.page 5] := by
  refine ⟨?_, by decide, by decide⟩
  simp only [Paginator.pages_range, if_pos h]

/-- C5 witness: a 5-page paginator at page 3 shows all five pages. -/
theorem pages_range_spec_witness :
    (Paginator.init 3 1 5).pages_range 2 2
      = (List.range' 1 (Paginator.init 3 1 5).pages).map PageItem.page :=
  (pages_range_spec (Paginator.init 3 1 5) 2 2 (by decide)).1

/-! ## Claim theorems: registration validation -/

/-- C7: `user_validation` never stops at the first failure.  When the
username is taken, the email is syntactically invalid (pydantic reports
`msg`) and the password violates some rule, the returned mapping contains
the `username`, `email` and `password` entries simultaneously; and
`password_validator` accumulates exactly the violated rules among: length
below 8, length above 50, missing uppercase, missing lowercase, missing
digit, contains whitespace, missing symbol. -/
theorem user_validation_accumulates
    (username email password msg : String) (db : ValidationDB)
    (hu : username ∈ db.usernames)
    (hp : password_validator password ≠ []) :
    (("username", username_validator username db)
        ∈ user_validation username email password (some msg) db none
     ∧ ("email", [msg])
        ∈ user_validation username email password (some msg) db none
     ∧ ("password", password_validator password)
        ∈ user_validation username email password (some msg) db none)
    ∧ ("Password must be at least 8 characters." ∈ password_validator password
        ↔ password.length < 8)
    ∧ ("Password must not exceed 50 characters." ∈ password_validator password
        ↔ password.length > 50)
    ∧ ("Password must contain at least one uppercase letter."
        ∈ password_validator password ↔ ¬ password.data.any Char.isUpper)
    ∧ ("Password must contain at least one lowercase letter."
        ∈ password_validator password ↔ ¬ password.data.any Char.isLower)
    ∧ ("Password must contain at least one digit."
        ∈ password_validator password ↔ ¬ password.data.any Char.isDigit)
    ∧ ("Password must not contain spaces." ∈ password_validator password
        ↔ password.data.any is_space_char)
    ∧ ("Password must contain at least one symbol."
        ∈ password_validator password ↔ ¬ password.data.any is_symbol_char) := by
  constructor
  · have hne : username_validator username db ≠ [] := by
      simp [username_validator, hu]
    refine ⟨?_, ?_, ?_⟩ <;>
      simp [user_validation, email_validator, hne, hp, List.mem_append,
        mem_ite_singleton]
  · refine ⟨?_, ?_, ?_, ?_, ?_, ?_, ?_⟩ <;>
      simp [password_validator, List.mem_append, mem_ite_singleton]

/-- C7 witness: with stored username `bob`, registering username `bob`,
an invalid email and the weak password `abc` yields all three error keys,
and `abc` violates the length, uppercase, digit and symbol rules at
once. -/
theorem user_validation_accumulates_witness :
    ("username", ["Username used before!"])
        ∈ user_validation "bob" "bad" "abc"
            (some "value is not a valid email address") ⟨["bob"], []⟩ none
    ∧ ("email", ["value is not a valid email address"])
        ∈ user_validation "bob" "bad" "abc"
            (some "value is not a valid email address") ⟨["bob"], []⟩ none
    ∧ ("password", password_validator "abc")
        ∈ user_validation "bob" "bad" "abc"
            (some "value is not a valid email address") ⟨["bob"], []⟩ none
    ∧ password_validator "abc"
        = ["Password must be at least 8 characters.",
           "Password must contain at least one uppercase letter.",
           "Password must contain at least one digit.",
           "Password must contain at least one symbol."] := by
  have h := user_validation_accumulates "bob" "bad" "abc"
    "value is not a valid email address" ⟨["bob"], []⟩ (by decide) (by decide)
  exact ⟨h.1.1, h.1.2.1, h.1.2.2, by decide⟩

/-- C10: `user_validation` skips the password-confirmation check whenever
`password_2` is `None` or the empty string: for every non-empty password,
an empty-string confirmation yields a result without the `password_2`
key, even though the confirmation differs from the password. -/
theorem user_validation_skips_blank_confirmation
    (username email password : String) (email_format_error : Option String)
    (db : ValidationDB) (hp : password ≠ "") :
    (user_validation username email password email_format_error db
        (some "")).lookup "password_2" = none
    ∧ (user_validation username email password email_format_error db
        none).lookup "password_2" = none
    ∧ "" ≠ password := by
  refine ⟨?_, ?_, fun h => hp h.symm⟩ <;>
    · simp only [user_validation]
      split_ifs <;> first | rfl | simp_all

/-- C10 witness: registering with password `Secret1!` and an empty
confirmation field reports no `password_2` error. -/
theorem user_validation_skips_blank_confirmation_witness :
    (user_validation "alice" "a@b.c" "Secret1!" none ⟨[], []⟩
        (some "")).lookup "password_2" = none :=
  (user_validation_skips_blank_confirmation "alice" "a@b.c" "Secret1!"
    none ⟨[], []⟩ (by decide)).1

/-! ## Claim theorems: media ingestion -/

/-- C8: `save_and_compress_image` fails with BadRequest (HTTP 400,
`Invalid image extension`) for every file whose extension is not among
png/jpg/jpeg/gif; fails with BadRequest for every file over 10 MB with no
disk write performed; fails with BadRequest (`Invalid image file`) at the
decode step for every file that passes the extension and size checks but
cannot be decoded as an image; and on success re-encodes the image as
JPEG and returns the stored path. -/
theorem save_and_compress_image_spec (image : UploadFile)
    (current_date uuid_part : String) :
    (allowed_file image.filename = false →
      save_and_compress_image image current_date uuid_part
        = (.error (.http 400 "Invalid image extension"), []))
    ∧ (image.size > MAX_FILE_SIZE →
        (∃ detail, (save_and_compress_image image current_date uuid_part).1
            = .error (.http 400 detail))
        ∧ (save_and_compress_image image current_date uuid_part).2 = [])
    ∧ (allowed_file image.filename = true → image.size ≤ MAX_FILE_SIZE →
        image.decodable = false →
        (save_and_compress_image image current_date uuid_part).1
          = .error (.http 400 "Invalid image file"))
    ∧ (allowed_file image.filename = true → image.size ≤ MAX_FILE_SIZE →
        image.decodable = true →
        ∃ path, save_and_compress_image image current_date uuid_part
          = (.ok path, [.makedirs (SAVE_DIR ++ "/" ++ current_date),
                        .save_jpeg path])) := by
  refine ⟨fun h1 => ?_, fun h2 => ?_, fun h1 h2 h3 => ?_, fun h1 h2 h3 => ?_⟩
  · simp [save_and_compress_image, h1]
  · by_cases h1 : allowed_file image.filename
    · have hn : MAX_FILE_SIZE < image.size := h2
      refine ⟨⟨"File size exceeds the maximum limit of 10 MB", ?_⟩, ?_⟩ <;>
        simp [save_and_compress_image, h1, hn]
    · simp only [Bool.not_eq_true] at h1
      refine ⟨⟨"Invalid image extension", ?_⟩, ?_⟩ <;>
        simp [save_and_compress_image, h1]
  · have hn : ¬ MAX_FILE_SIZE < image.size := by omega
    simp [save_and_compress_image, h1, h3, hn]
  · have hn : ¬ MAX_FILE_SIZE < image.size := by omega
    refine ⟨SAVE_DIR ++ "/" ++ current_date ++ "/"
        ++ (uuid_part ++ "." ++ lower_str (rsplit_ext image.filename)), ?_⟩
    simp [save_and_compress_image, h1, h3, hn]

/-- C8 witness: an 11 MB png upload is rejected with no disk write; a
non-image file renamed to `fake.jpg` passes the extension check and is
rejected at decode; a 100-byte decodable `photo.jpg` is stored as a JPEG
under the date directory. -/
theorem save_and_compress_image_spec_witness :
    ((∃ detail,
        (save_and_compress_image ⟨"big.png", 11 * 1024 * 1024, true⟩
            "2024-01-01" "abcdef0000").1 = .error (.http 400 detail))
      ∧ (save_and_compress_image ⟨"big.png", 11 * 1024 * 1024, true⟩
            "2024-01-01" "abcdef0000").2 = [])
    ∧ ((save_and_compress_image ⟨"fake.jpg", 5, false⟩
            "2024-01-01" "abcdef0000").1 = .error (.http 400 "Invalid image file"))
    ∧ (∃ path, save_and_compress_image ⟨"photo.jpg", 100, true⟩
            "2024-01-01" "abcdef0000"
          = (.ok path, [.makedirs (SAVE_DIR ++ "/" ++ "2024-01-01"),
                        .save_jpeg path])) :=
  ⟨(save_and_compress_image_spec ⟨"big.png", 11 * 1024 * 1024, true⟩
      "2024-01-01" "abcdef0000").2.1 (by decide),
   (save_and_compress_image_spec ⟨"fake.jpg", 5, false⟩
      "2024-01-01" "abcdef0000").2.2.1 (by decide) (by decide) (by decide),
   (save_and_compress_image_spec ⟨"photo.jpg", 100, true⟩
      "2024-01-01" "abcdef0000").2.2.2 (by decide) (by decide) (by decide)⟩

/-! ## Claim theorems: vote ratio engine -/

/-- C1: after every successful review create, update or delete, the
affected project's `vote_ratio` equals (count of that project's `up`
reviews) / `vote_total` * 100, under the precondition that `vote_total`
is nonzero in the resulting state (`ratio_recomputed`). -/
theorem review_handlers_recompute_ratio (s : State)
    (project_id review_id user_id new_review_id : Nat)
    (body : Option String) (value : Value) :
    (∀ r s', create_review project_id body value user_id new_review_id s
        = (.ok r, s') → ratio_recomputed project_id s')
    ∧ (∀ rv s', get_my_review review_id user_id s = .ok rv →
        update_review review_id body value user_id s = (.ok (), s') →
        ratio_recomputed rv.project_id s')
    ∧ (∀ rv s', get_my_review review_id user_id s = .ok rv →
        delete_review review_id user_id s = (.ok (), s') →
        ratio_recomputed rv.project_id s') := by
  refine ⟨fun r s' h => ?_, fun rv s' hrv h => ?_, fun rv s' hrv h => ?_⟩
  · unfold create_review at h
    split at h
    · simp at h
    · dsimp only at h
      split at h
      · rename_i s2 heq
        simp only [Prod.mk.injEq] at h
        obtain ⟨-, rfl⟩ := h
        exact (update_votes_ok _ _ _ heq).2.2.2
      · simp at h
  · unfold update_review at h
    split at h
    next e heq =>
      rw [hrv] at heq
      simp at heq
    next review heq =>
      rw [hrv] at heq
      injection heq with heq
      subst heq
      dsimp only at h
      split at h
      · rename_i s2 heq2
        simp only [Prod.mk.injEq] at h
        obtain ⟨-, rfl⟩ := h
        exact (update_votes_ok _ _ _ heq2).2.2.2
      · simp at h
  · unfold delete_review at h
    split at h
    next e heq =>
      rw [hrv] at heq
      simp at heq
    next review heq =>
      rw [hrv] at heq
      injection heq with heq
      subst heq
      dsimp only at h
      split at h
      · rename_i s2 heq2
        simp only [Prod.mk.injEq] at h
        obtain ⟨-, rfl⟩ := h
        exact (update_votes_ok _ _ _ heq2).2.2.2
      · simp at h

/-- C1 witness: on a fresh project with `vote_total = 0`, creating one
`up` review (the trigger makes `vote_total = 1`) ends with
`vote_ratio = 100`. -/
theorem review_handlers_recompute_ratio_witness :
    create_review 1 none Value.up 9 42 ⟨[⟨1, some 7, none, 0, 0⟩], [], [], []⟩
      = (.ok ⟨42, none, Value.up, some 9, 1⟩,
         ⟨[⟨1, some 7, none, 1, 100⟩], [⟨42, none, Value.up, some 9, 1⟩], [], []⟩)
    ∧ ∀ p, _get_project 1
        ⟨[⟨1, some 7, none, 1, 100⟩], [⟨42, none, Value.up, some 9, 1⟩], [], []⟩
          = some p → p.vote_total ≠ 0 →
        p.vote_ratio
          = (count_up_reviews 1
              ⟨[⟨1, some 7, none, 1, 100⟩],
               [⟨42, none, Value.up, some 9, 1⟩], [], []⟩ : ℚ)
            / (p.vote_total : ℚ) * 100 := by
  have hev : create_review 1 none Value.up 9 42
      ⟨[⟨1, some 7, none, 0, 0⟩], [], [], []⟩
      = (.ok ⟨42, none, Value.up, some 9, 1⟩,
         ⟨[⟨1, some 7, none, 1, 100⟩], [⟨42, none, Value.up, some 9, 1⟩], [], []⟩) := by
    norm_num [create_review, update_votes, _get_project, count_up_reviews,
      trigger_review_insert, Project.update_vote_ratio, List.find?, List.filter]
  exact ⟨hev,
    (review_handlers_recompute_ratio ⟨[⟨1, some 7, none, 0, 0⟩], [], [], []⟩
      1 0 9 42 none Value.up).1 ⟨42, none, Value.up, some 9, 1⟩ _ hev⟩

/-- C3: when a review for the same (project, owner) pair already exists,
`create_review` fails with the duplicate-review rejection — the spec's
"Conflict" error class, raised by the code as HTTP 400 `User has already
reviewed this project.` — and the state is unchanged (no review
inserted); when no such review exists (and the project does), the review
is inserted and the project's ratio is recomputed afterward. -/
theorem create_review_conflict (s : State)
    (project_id user_id new_review_id : Nat)
    (body : Option String) (value : Value) :
    (∀ r0, s.reviews.find?
        (fun r => r.project_id == project_id && r.owner_id == some user_id)
        = some r0 →
      create_review project_id body value user_id new_review_id s
        = (.error (.http 400 "User has already reviewed this project."), s))
    ∧ (s.reviews.find?
        (fun r => r.project_id == project_id && r.owner_id == some user_id)
        = none →
      ∀ p, _get_project project_id s = some p →
      ∃ s', create_review project_id body value user_id new_review_id s
          = (.ok { review_id := new_review_id, body := body, value := value,
                   owner_id := some user_id, project_id := project_id }, s')
        ∧ s'.reviews = s.reviews
            ++ [{ review_id := new_review_id, body := body, value := value,
                  owner_id := some user_id, project_id := project_id }]
        ∧ ratio_recomputed project_id s') := by
  constructor
  · intro r0 hdup
    unfold create_review
    rw [hdup]
  · intro hnone p hp
    unfold _get_project at hp
    have hpres : ∀ a : Project,
        ((if a.project_id == project_id
          then { a with vote_total := a.vote_total + 1 } else a).project_id
          == project_id) = (a.project_id == project_id) := by
      intro a; by_cases ha : a.project_id == project_id <;> simp [ha]
    have hp1 : _get_project project_id
        (trigger_review_insert project_id
          { s with reviews := s.reviews
              ++ [{ review_id := new_review_id, body := body, value := value,
                    owner_id := some user_id, project_id := project_id }] })
        = some (if p.project_id == project_id
                then { p with vote_total := p.vote_total + 1 } else p) := by
      unfold _get_project trigger_review_insert
      simp only
      rw [find?_map_pred _ _ hpres, hp, Option.map_some']
    obtain ⟨s2, huv⟩ :
        ∃ s2, update_votes project_id
          (trigger_review_insert project_id
            { s with reviews := s.reviews
                ++ [{ review_id := new_review_id, body := body, value := value,
                      owner_id := some user_id, project_id := project_id }] })
          = .ok s2 := ⟨_, update_votes_of_exists _ _ _ hp1⟩
    refine ⟨s2, ?_, ?_, ?_⟩
    · unfold create_review
      rw [hnone]
      dsimp only
      rw [huv]
    · rw [(update_votes_ok _ _ _ huv).1]
      rfl
    · exact (update_votes_ok _ _ _ huv).2.2.2

/-- C3 witness: a second review by user 9 on project 1 is rejected with
the duplicate-review error and no state change; a first review on a
fresh project is inserted and the ratio recomputed. -/
theorem create_review_conflict_witness :
    create_review 1 none Value.up 9 43
        ⟨[⟨1, some 7, none, 1, 100⟩], [⟨42, none, Value.up, some 9, 1⟩], [], []⟩
      = (.error (.http 400 "User has already reviewed this project."),
         ⟨[⟨1, some 7, none, 1, 100⟩], [⟨42, none, Value.up, some 9, 1⟩], [], []⟩)
    ∧ ∃ s', create_review 1 none Value.up 9 42
          ⟨[⟨1, some 7, none, 0, 0⟩], [], [], []⟩
        = (.ok ⟨42, none, Value.up, some 9, 1⟩, s')
      ∧ s'.reviews = [⟨42, none, Value.up, some 9, 1⟩]
      ∧ ratio_recomputed 1 s' :=
  ⟨(create_review_conflict
      ⟨[⟨1, some 7, none, 1, 100⟩], [⟨42, none, Value.up, some 9, 1⟩], [], []⟩
      1 9 43 none Value.up).1 ⟨42, none, Value.up, some 9, 1⟩ (by decide),
   (create_review_conflict ⟨[⟨1, some 7, none, 0, 0⟩], [], [], []⟩
      1 9 42 none Value.up).2 (by decide) ⟨1, some 7, none, 0, 0⟩ (by decide)⟩

/-! ## Claim theorems: tag association -/

/-- C4 counterexample.  The claim fails on the code in three ways.
First: for a non-owner (user 99) and a `(project, tag)` pair with no
association, the claim requires Forbidden, but the code returns the
NotFound error (the association lookup runs first).  Second: with the
owner acting and two other projects still referencing the tag, the claim
requires the association row to be removed and the tag kept, but
`scalar_one_or_none()` raises `MultipleResultsFound` and nothing is
committed.  Third: the claim allows NotFound only when the pair has no
association, but an association whose project has a NULL owner also
returns NotFound. -/
theorem delete_tag_counterexample :
    delete_tag 5 1 99 ⟨[⟨1, some 10, none, 0, 0⟩], [], [⟨5, "web"⟩], []⟩
      = (.error (.http 404 "Tag not found!"),
         ⟨[⟨1, some 10, none, 0, 0⟩], [], [⟨5, "web"⟩], []⟩)
    ∧ delete_tag 5 1 10
        ⟨[⟨1, some 10, none, 0, 0⟩, ⟨2, some 11, none, 0, 0⟩,
          ⟨3, some 12, none, 0, 0⟩],
         [], [⟨5, "web"⟩], [(1, 5), (2, 5), (3, 5)]⟩
      = (.error (.pyexc "MultipleResultsFound"),
         ⟨[⟨1, some 10, none, 0, 0⟩, ⟨2, some 11, none, 0, 0⟩,
           ⟨3, some 12, none, 0, 0⟩],
          [], [⟨5, "web"⟩], [(1, 5), (2, 5), (3, 5)]⟩)
    ∧ delete_tag 5 1 10 ⟨[⟨1, none, none, 0, 0⟩], [], [⟨5, "web"⟩], [(1, 5)]⟩
      = (.error (.http 404 "Tag not found!"),
         ⟨[⟨1, none, none, 0, 0⟩], [], [⟨5, "web"⟩], [(1, 5)]⟩) :=
  ⟨by decide, by decide, by decide⟩

/-- C4 amended: `delete_tag` fails with NotFound when the project is
missing, when the `(project, tag)` pair has no association, or when the
project's owner is NULL (this lookup runs before the ownership check);
otherwise fails with the not-authorized rejection (HTTP 401) when the
actor does not own the project; otherwise removes the association rows
and then: deletes the Tag row when no association for the tag remains,
keeps it when exactly one remains, and fails with `MultipleResultsFound`
— leaving the database unchanged — when two or more remain. -/
theorem delete_tag_behavior (s : State) (tag_id project_id user_id : Nat)
    (p : Project) (o : Nat) :
    (s.projects.find? (fun q => q.project_id == project_id) = none →
      delete_tag tag_id project_id user_id s
        = (.error (.http 404 "Tag not found!"), s))
    ∧ (s.projects.find? (fun q => q.project_id == project_id) = some p →
       s.project_tags.any (fun a => a.1 == project_id && a.2 == tag_id)
         = false →
      delete_tag tag_id project_id user_id s
        = (.error (.http 404 "Tag not found!"), s))
    ∧ (s.projects.find? (fun q => q.project_id == project_id) = some p →
       p.owner_id = none →
      delete_tag tag_id project_id user_id s
        = (.error (.http 404 "Tag not found!"), s))
    ∧ (s.projects.find? (fun q => q.project_id == project_id) = some p →
       s.project_tags.any (fun a => a.1 == project_id && a.2 == tag_id)
         = true →
       p.owner_id = some o → user_id ≠ o →
      delete_tag tag_id project_id user_id s
        = (.error (.http 401
            "You\x27re not authorized to delete tags from this project!"), s))
    ∧ (s.projects.find? (fun q => q.project_id == project_id) = some p →
       s.project_tags.any (fun a => a.1 == project_id && a.2 == tag_id)
         = true →
       p.owner_id = some user_id →
       ((s.project_tags.filter
            (fun a => !(a.1 == project_id && a.2 == tag_id))).filter
            (fun a => a.2 == tag_id) = [] →
         delete_tag tag_id project_id user_id s
           = (.ok (), { s with
               project_tags := s.project_tags.filter
                 (fun a => !(a.1 == project_id && a.2 == tag_id)),
               tags := s.tags.filter (fun t => !(t.tag_id == tag_id)) }))
       ∧ (∀ x, (s.project_tags.filter
            (fun a => !(a.1 == project_id && a.2 == tag_id))).filter
            (fun a => a.2 == tag_id) = [x] →
         delete_tag tag_id project_id user_id s
           = (.ok (), { s with
               project_tags := s.project_tags.filter
                 (fun a => !(a.1 == project_id && a.2 == tag_id)) }))
       ∧ (∀ x y rest, (s.project_tags.filter
            (fun a => !(a.1 == project_id && a.2 == tag_id))).filter
            (fun a => a.2 == tag_id) = x :: y :: rest →
         delete_tag tag_id project_id user_id s
           = (.error (.pyexc "MultipleResultsFound"), s))) := by
  refine ⟨fun h1 => ?_, fun h1 h2 => ?_, fun h1 h2 => ?_, fun h1 h2 h3 h4 => ?_,
    fun h1 h2 h3 => ⟨fun hr => ?_, fun x hr => ?_, fun x y rest hr => ?_⟩⟩
  · unfold delete_tag
    rw [h1]
  · unfold delete_tag
    rw [h1]
    simp [h2]
  · unfold delete_tag
    rw [h1]
    simp [h2]
  · unfold delete_tag
    rw [h1]
    simp only [h2, h3, if_true]
    rw [if_pos h4]
  · unfold delete_tag
    rw [h1]
    simp only [h2, h3, if_true]
    rw [if_neg (by simp), hr]
  · unfold delete_tag
    rw [h1]
    simp only [h2, h3, if_true]
    rw [if_neg (by simp), hr]
  · unfold delete_tag
    rw [h1]
    simp only [h2, h3, if_true]
    rw [if_neg (by simp), hr]

/-- C4 amended witness: deleting the last association removes the tag
row; deleting one of two associations keeps the tag row (still
associated with the other project). -/
theorem delete_tag_behavior_witness :
    delete_tag 5 1 10 ⟨[⟨1, some 10, none, 0, 0⟩], [], [⟨5, "web"⟩], [(1, 5)]⟩
      = (.ok (), ⟨[⟨1, some 10, none, 0, 0⟩], [], [], []⟩)
    ∧ delete_tag 5 1 10
        ⟨[⟨1, some 10, none, 0, 0⟩, ⟨2, some 11, none, 0, 0⟩],
         [], [⟨5, "web"⟩], [(1, 5), (2, 5)]⟩
      = (.ok (), ⟨[⟨1, some 10, none, 0, 0⟩, ⟨2, some 11, none, 0, 0⟩],
         [], [⟨5, "web"⟩], [(2, 5)]⟩) :=
  ⟨((delete_tag_behavior
      ⟨[⟨1, some 10, none, 0, 0⟩], [], [⟨5, "web"⟩], [(1, 5)]⟩
      5 1 10 ⟨1, some 10, none, 0, 0⟩ 10).2.2.2.2
      (by decide) (by decide) (by decide)).1 (by decide),
   ((delete_tag_behavior
      ⟨[⟨1, some 10, none, 0, 0⟩, ⟨2, some 11, none, 0, 0⟩],
       [], [⟨5, "web"⟩], [(1, 5), (2, 5)]⟩
      5 1 10 ⟨1, some 10, none, 0, 0⟩ 10).2.2.2.2
      (by decide) (by decide) (by decide)).2.1 (2, 5) (by decide)⟩

/-! ## Claim theorems: partial profile update -/

/-- C2 failing-input evaluation.  The handler dumps every schema field
(`model_dump()` without `exclude_unset=True`), so a payload containing
only `{"bio": null}` clears `bio` but also overwrites every other
optional field with `None`: stored `location = "Cairo"` and
`github = "gh"` are wiped, contradicting the claim and the handler's own
docstring ("If a field is not provided, the existing value for that
field will remain unchanged").  Fields outside the schema (`username`)
do stay unchanged. -/
theorem update_profile_wipes_absent_fields :
    update_profile
      { username := "dev1", email := "dev@example.com", password := "hash",
        first_name := none, last_name := none, location := some "Cairo",
        short_intro := none, bio := some "old bio", github := some "gh",
        x := none, linkedin := none, youtube := none, website := none }
      (UpdateProfile.of_payload
        { first_name := none, last_name := none, location := none,
          short_intro := none, bio := some none, github := none, x := none,
          linkedin := none, youtube := none, website := none })
      = { username := "dev1", email := "dev@example.com", password := "hash",
          first_name := none, last_name := none, location := none,
          short_intro := none, bio := none, github := none, x := none,
          linkedin := none, youtube := none, website := none } := by
  decide

/-! ## Claim theorems: project deletion -/

/-- C9: when the project's owner invokes the delete-project endpoint,
the handler passes the authenticated-user value — not the loaded project
— to `db.delete`, so the database state (in particular the Project row)
is unchanged; the only possible side effect is removal of the
featured-image file, and the request ends in an uncaught exception. -/
theorem delete_project_never_deletes_row (s : State)
    (project_id user_id : Nat) (project : Project)
    (hp : _get_project project_id s = some project)
    (howner : project.owner_id = some user_id) :
    (delete_project project_id user_id s).2.1 = s
    ∧ _get_project project_id (delete_project project_id user_id s).2.1
        = some project
    ∧ (∀ path ∈ (delete_project project_id user_id s).2.2,
        project.featured_image = some path)
    ∧ (∃ exc, (delete_project project_id user_id s).1
        = .error (.pyexc exc)) := by
  unfold delete_project
  rw [hp]
  dsimp only
  rw [if_neg (by simp [howner])]
  refine ⟨rfl, hp, ?_, ⟨"UnmappedInstanceError", rfl⟩⟩
  intro path hpath
  cases hfi : project.featured_image with
  | none => rw [hfi] at hpath; simp at hpath
  | some fp =>
    rw [hfi] at hpath
    dsimp only at hpath
    split at hpath
    · simp at hpath
      rw [hpath]
    · simp at hpath

/-- C9 witness: the owner (user 7) deleting project 1 leaves the project
row in place; only the featured-image path is removed from disk. -/
theorem delete_project_never_deletes_row_witness :
    (delete_project 1 7
        ⟨[⟨1, some 7, some "/img.jpg", 0, 0⟩], [], [], []⟩).2.1
      = ⟨[⟨1, some 7, some "/img.jpg", 0, 0⟩], [], [], []⟩
    ∧ _get_project 1
        (delete_project 1 7
          ⟨[⟨1, some 7, some "/img.jpg", 0, 0⟩], [], [], []⟩).2.1
      = some ⟨1, some 7, some "/img.jpg", 0, 0⟩ :=
  ⟨(delete_project_never_deletes_row
      ⟨[⟨1, some 7, some "/img.jpg", 0, 0⟩], [], [], []⟩ 1 7
      ⟨1, some 7, some "/img.jpg", 0, 0⟩ (by decide) (by decide)).1,
   (delete_project_never_deletes_row
      ⟨[⟨1, some 7, some "/img.jpg", 0, 0⟩], [], [], []⟩ 1 7
      ⟨1, some 7, some "/img.jpg", 0, 0⟩ (by decide) (by decide)).2.1⟩

end DevSearch
